import Mathlib

/-!
Verification of the segment classification and extraction engine of an EDI
parsing library (src/edi.py and src/x12.py), as a shallow embedding in Lean.

The embedding models:
* Python `list` indexing (including negative indices) and `str.split`;
* `datetime.strptime`/`strftime` restricted to the date formats the code uses;
* the `ElementExtractionFailure` record and the failure log;
* `EdiBase.__init__`, `EdiBase.universal_element_extract` and the `EdiX12`
  segment handlers, with the parser's mutable attributes and the traversal
  state dictionary made explicit.

Stateful code is modelled by explicit state passing: each handler takes the
parser attributes, the failure log and the traversal-state dictionary and
returns their new values, or a Python exception kind (`Except.error`) where
the source would raise.
-/

/-- Kinds of Python exceptions the modelled code can raise. -/
inductive PyError where
  | valueError
  | attributeError
  | keyError
  | typeError
deriving DecidableEq, Repr

/-- Python list indexing `xs[i]` for `int` indices: nonnegative indices are
counted from the front, negative indices from the end; `none` models the
`IndexError` cases. -/
def pyIndex (xs : List String) (i : Int) : Option String :=
  if 0 ≤ i then xs.get? i.toNat
  else if 0 ≤ (xs.length : Int) + i then xs.get? ((xs.length : Int) + i).toNat
  else none

/-- Whether `sep` is a prefix of the second list (used by the split model). -/
def prefixMatches : List Char → List Char → Bool
  | [], _ => true
  | _ :: _, [] => false
  | a :: as, b :: bs => a = b && prefixMatches as bs

/-- Finds the first occurrence of `sep` in a character list, returning the
characters before it and the characters after it. -/
def findSep (sep : List Char) : List Char → Option (List Char × List Char)
  | [] => none
  | c :: rest =>
    if prefixMatches sep (c :: rest) then some ([], (c :: rest).drop sep.length)
    else
      match findSep sep rest with
      | some (pre, post) => some (c :: pre, post)
      | none => none

/-- Worker for `pySplit`. The fuel argument only bounds the recursion depth so
that the definition is structural; `cs.length + 1` always suffices because
each recursive step consumes at least one character of a nonempty separator. -/
def pySplitAux (sep : List Char) : Nat → List Char → List (List Char)
  | 0, cs => [cs]
  | fuel + 1, cs =>
    match findSep sep cs with
    | none => [cs]
    | some (pre, post) => pre :: pySplitAux sep fuel post

/-- Python `s.split(sep)` for a nonempty separator (the source always splits on
the configured one-character separators; Python would raise `ValueError` on an
empty separator, which never occurs in the modelled code). -/
def pySplit (sep : String) (s : String) : List String :=
  if sep = "" then [s]
  else (pySplitAux sep.toList (s.toList.length + 1) s.toList).map (fun cs => String.mk cs)

/-- Python `s[:n]` on strings. -/
def pyTake (s : String) (n : Nat) : String :=
  String.mk (s.toList.take n)

/-- Character-list worker for `pyUnicodeUnescape`, covering the escape
sequences relevant to separator overrides (`\t`, `\n`, `\r`, `\\`); an
unknown escape is kept verbatim, as `unicode_escape` does. A trailing lone
backslash (for which Python raises) is kept verbatim; it never occurs in the
modelled code. -/
def pyUnescapeChars : List Char → List Char
  | [] => []
  | '\\' :: [] => ['\\']
  | '\\' :: c :: rest =>
    if c = 't' then '\t' :: pyUnescapeChars rest
    else if c = 'n' then '\n' :: pyUnescapeChars rest
    else if c = 'r' then '\r' :: pyUnescapeChars rest
    else if c = '\\' then '\\' :: pyUnescapeChars rest
    else '\\' :: c :: pyUnescapeChars rest
  | c :: rest => c :: pyUnescapeChars rest

/-- Python `s.encode().decode('unicode_escape')` as used on the separators. -/
def pyUnicodeUnescape (s : String) : String :=
  String.mk (pyUnescapeChars s.toList)

/-- Python truthiness of an optional string (`None` and `""` are falsy). -/
def pyTruthyOptStr : Option String → Bool
  | none => false
  | some s => !(s == "")

/-- Gregorian leap-year test, for `strptime` day-of-month validation. -/
def isLeap (y : Nat) : Bool :=
  (y % 4 == 0 && y % 100 != 0) || y % 400 == 0

/-- Number of days in a month, for `strptime` validation. -/
def daysInMonth (y m : Nat) : Nat :=
  if m == 2 then (if isLeap y then 29 else 28)
  else if m == 4 || m == 6 || m == 9 || m == 11 then 30
  else 31

/-- Whether (y, m, d) is a calendar date `strptime` accepts. -/
def validDate (y m d : Nat) : Bool :=
  1 ≤ m && m ≤ 12 && 1 ≤ d && d ≤ daysInMonth y m

/-- Numeric value of a list of decimal digit characters. -/
def digitsVal (cs : List Char) : Nat :=
  cs.foldl (fun acc c => acc * 10 + (c.toNat - 48)) 0

/-- Python `datetime.strptime(s, fmt)` restricted to the two input formats the
source code uses (`%Y%m%d` and `%y%m%d`; `%y` uses Python's 1969 pivot). Any
other format string never parses, which is sound for this code base because no
other input format appears in it. Returns (year, month, day) or `none` for the
`ValueError` case. -/
def strptime (s fmt : String) : Option (Nat × Nat × Nat) :=
  let cs := s.toList
  if fmt = "%Y%m%d" then
    if cs.length = 8 && cs.all Char.isDigit then
      let y := digitsVal (cs.take 4)
      let m := digitsVal ((cs.drop 4).take 2)
      let d := digitsVal (cs.drop 6)
      if validDate y m d then some (y, m, d) else none
    else none
  else if fmt = "%y%m%d" then
    if cs.length = 6 && cs.all Char.isDigit then
      let yy := digitsVal (cs.take 2)
      let y := if yy ≤ 68 then 2000 + yy else 1900 + yy
      let m := digitsVal ((cs.drop 2).take 2)
      let d := digitsVal (cs.drop 4)
      if validDate y m d then some (y, m, d) else none
    else none
  else none

/-- Two-digit zero padding, as `strftime` emits for `%m` and `%d`. -/
def pad2 (n : Nat) : String :=
  if n < 10 then "0" ++ toString n else toString n

/-- Python `date.strftime(fmt)` restricted to `%m-%d-%Y`, the only output
format the source code ever passes; other format strings are not modelled. -/
def strftime (fmt : String) (d : Nat × Nat × Nat) : String :=
  if fmt = "%m-%d-%Y" then pad2 d.2.1 ++ "-" ++ pad2 d.2.2 ++ "-" ++ toString d.1
  else ""

/-- The `int` / `(element_index, subelement_index)` forms of a position. -/
inductive PosSpec where
  | pint (i : Int)
  | ptup (i j : Int)
deriving DecidableEq, Repr

/-- One value of the `position` dict in `universal_element_extract`: either a
plain position, or a `pos`/`date` record (`withDate p fd` models
`spec.get("pos") = p` with `spec.get("date", None) = fd`, `none` standing for
an absent or `None` entry). -/
inductive DictSpec where
  | plain (p : PosSpec)
  | withDate (p : PosSpec) (fd : Option Bool)
deriving DecidableEq, Repr

/-- The full `position` argument of `universal_element_extract`:
`int | tuple | list | dict`. -/
inductive PosArg where
  | single (p : PosSpec)
  | plist (ps : List PosSpec)
  | pdict (es : List (String × DictSpec))
deriving DecidableEq, Repr

/-- A Python value stored in the `position` field of a failure record: the
code stores the bare element index for an element-index failure, and the whole
original `position` argument for subelement and date failures. -/
inductive PyPos where
  | int (i : Int)
  | tup (i j : Int)
  | list (ps : List PosSpec)
  | dict (es : List (String × DictSpec))
deriving DecidableEq, Repr

/-- The `position` argument as stored in a failure record. -/
def posArgToPyPos : PosArg → PyPos
  | .single (.pint i) => .int i
  | .single (.ptup i j) => .tup i j
  | .plist ps => .list ps
  | .pdict es => .dict es

/-- The `ElementExtractionFailure` record of src/edi.py, with the same fields
and constructor defaults. -/
structure ElementExtractionFailure where
  failure_point : String
  failure_reason : String
  segment : String
  position : PyPos
  element : Option String := none
  subposition : Option Int := none
  date : Bool := false
  date_format_in : String := "%Y%m%d"
  date_format_out : String := "%m-%d-%Y"
deriving DecidableEq, Repr

/-- A leaf value produced by extraction: an extracted string or a failure
record substituted for it. -/
inductive ExtractVal where
  | str (s : String)
  | failure (f : ElementExtractionFailure)
deriving DecidableEq, Repr

/-- The overall return value of `universal_element_extract`: a single value,
a list of values, or a label-to-value mapping. -/
inductive ExtractResult where
  | single (v : ExtractVal)
  | list (vs : List ExtractVal)
  | dict (es : List (String × ExtractVal))
deriving DecidableEq, Repr

/-- The failure records carried by one leaf value (none for a plain string). -/
def leafFailures : ExtractVal → List ElementExtractionFailure
  | .str _ => []
  | .failure f => [f]

/-- All failure records carried by an extraction result, in leaf order. -/
def resultFailures : ExtractResult → List ElementExtractionFailure
  | .single v => leafFailures v
  | .list vs => vs.flatMap leafFailures
  | .dict es => es.flatMap (fun kv => leafFailures kv.2)

/-- The element and subelement separators a parser instance carries, as used
by `universal_element_extract`. -/
structure Separators where
  element_separator : String
  subelement_separator : String
deriving DecidableEq, Repr

/-- Default `date_format_in` of `universal_element_extract`. -/
def DFLT_DATE_IN : String := "%Y%m%d"

/-- Default `date_format_out` of `universal_element_extract`. -/
def DFLT_DATE_OUT : String := "%m-%d-%Y"

/-- `EdiBase.handle_extraction_error`: appends the failure to the instance's
failure log and returns it (the lazily created `extraction_errors` list is
modelled as a log that starts empty). -/
def handle_extraction_error (log : List ElementExtractionFailure)
    (e : ElementExtractionFailure) : ExtractVal × List ElementExtractionFailure :=
  (.failure e, log ++ [e])

/-- The failure record built when `segment.split(...)[pos]` raises
`IndexError`; the source stores the bare element index in `position`. The
`failure_reason` message is modelled without Python `repr` quoting. -/
def mkElemIndexFailure (segment : String) (pos : Int) : ElementExtractionFailure :=
  { failure_point := "Element Index"
    failure_reason := "Position " ++ toString pos ++ " out of range for " ++ segment
    segment := segment
    position := .int pos }

/-- The failure record built when the subelement split raises `IndexError`;
the source stores the whole original `position` argument, the element that was
already extracted and the subposition. -/
def mkSubIndexFailure (segment : String) (origPos : PosArg) (element : String)
    (subpos : Int) : ElementExtractionFailure :=
  { failure_point := "Subelement Index"
    failure_reason := "Subposition " ++ toString subpos ++ " out of range for " ++ element
    segment := segment
    position := posArgToPyPos origPos
    element := some element
    subposition := some subpos }

/-- The failure record built when `strptime` raises; it carries the element,
the subposition and both date formats (`str(e)` is modelled as the message
`strptime` produces, without Python quoting). -/
def mkDateFailure (segment : String) (origPos : PosArg) (element : String)
    (subpos : Option Int) (fmtIn fmtOut : String) : ElementExtractionFailure :=
  { failure_point := "Date conversion"
    failure_reason := "time data " ++ element ++ " does not match format " ++ fmtIn
    segment := segment
    position := posArgToPyPos origPos
    element := some element
    subposition := subpos
    date_format_in := fmtIn
    date_format_out := fmtOut }

/-- The element index of a position spec (the `pos` after tuple unpacking). -/
def elemIndexOf : PosSpec → Int
  | .pint i => i
  | .ptup i _ => i

/-- The subelement index of a position spec (`subpos`; `none` when absent). -/
def subIndexOf : PosSpec → Option Int
  | .pint _ => none
  | .ptup _ j => some j

/-- The date step at the end of `extract_one`: when `date` is set, try to
parse and reformat; on a parse error, produce a logged failure only when
`single_date or force_date` holds, otherwise return the element unconverted. -/
def dateStep (segment : String) (origPos : PosArg) (singleDate date : Bool)
    (fmtIn fmtOut : String) (forceDate : Option Bool) (element : String)
    (subpos : Option Int) (log : List ElementExtractionFailure) :
    ExtractVal × List ElementExtractionFailure :=
  if date then
    match strptime element fmtIn with
    | some ymd => (.str (strftime fmtOut ymd), log)
    | none =>
      if singleDate || forceDate == some true then
        handle_extraction_error log (mkDateFailure segment origPos element subpos fmtIn fmtOut)
      else (.str element, log)
  else (.str element, log)

/-- The inner `extract_one` of `EdiBase.universal_element_extract`: element
lookup, optional subelement lookup, optional date conversion; each failure is
returned as the value and appended to the log via `handle_extraction_error`. -/
def extract_one (sep : Separators) (segment : String) (origPos : PosArg)
    (singleDate date : Bool) (fmtIn fmtOut : String) (p : PosSpec)
    (forceDate : Option Bool) (log : List ElementExtractionFailure) :
    ExtractVal × List ElementExtractionFailure :=
  match pyIndex (pySplit sep.element_separator segment) (elemIndexOf p) with
  | none => handle_extraction_error log (mkElemIndexFailure segment (elemIndexOf p))
  | some element0 =>
    match subIndexOf p with
    | none => dateStep segment origPos singleDate date fmtIn fmtOut forceDate element0 none log
    | some sp =>
      match pyIndex (pySplit sep.subelement_separator element0) sp with
      | none => handle_extraction_error log (mkSubIndexFailure segment origPos element0 sp)
      | some sub =>
        dateStep segment origPos singleDate date fmtIn fmtOut forceDate sub (some sp) log

/-- The list comprehension `[extract_one(p) for p in position]`, threading the
failure log left to right (`single_date` is false for a list argument and no
entry carries a `force_date`). -/
def extract_list (sep : Separators) (segment : String) (origPos : PosArg)
    (date : Bool) (fmtIn fmtOut : String) :
    List PosSpec → List ElementExtractionFailure →
    List ExtractVal × List ElementExtractionFailure
  | [], log => ([], log)
  | p :: ps, log =>
    let r := extract_one sep segment origPos false date fmtIn fmtOut p none log
    let rs := extract_list sep segment origPos date fmtIn fmtOut ps r.2
    (r.1 :: rs.1, rs.2)

/-- The position and `force_date` taken from one dict entry
(`spec.get("pos")` / `spec.get("date", None)`). -/
def dictSpecParts : DictSpec → PosSpec × Option Bool
  | .plain p => (p, none)
  | .withDate p fd => (p, fd)

/-- The dict loop of `universal_element_extract`, preserving entry order
(Python dicts iterate in insertion order). -/
def extract_dict (sep : Separators) (segment : String) (origPos : PosArg)
    (date : Bool) (fmtIn fmtOut : String) :
    List (String × DictSpec) → List ElementExtractionFailure →
    List (String × ExtractVal) × List ElementExtractionFailure
  | [], log => ([], log)
  | (key, spec) :: es, log =>
    let pf := dictSpecParts spec
    let r := extract_one sep segment origPos false date fmtIn fmtOut pf.1 pf.2 log
    let rs := extract_dict sep segment origPos date fmtIn fmtOut es r.2
    ((key, r.1) :: rs.1, rs.2)

/-- The single-position case of `universal_element_extract`, with
`single_date` true exactly when the position is a plain `int`. -/
def extract_single (sep : Separators) (segment : String) (p : PosSpec)
    (date : Bool) (fmtIn fmtOut : String) (log : List ElementExtractionFailure) :
    ExtractVal × List ElementExtractionFailure :=
  extract_one sep segment (.single p)
    (match p with | .pint _ => true | .ptup _ _ => false)
    date fmtIn fmtOut p none log

/-- `EdiBase.universal_element_extract`: dispatches on the shape of the
`position` argument; the `TypeError` branch for unsupported types cannot occur
in the typed embedding. -/
def universal_element_extract (sep : Separators) (segment : String)
    (position : PosArg) (date : Bool) (fmtIn fmtOut : String)
    (log : List ElementExtractionFailure) :
    ExtractResult × List ElementExtractionFailure :=
  match position with
  | .single p =>
    let r := extract_single sep segment p date fmtIn fmtOut log
    (.single r.1, r.2)
  | .plist ps =>
    let r := extract_list sep segment position date fmtIn fmtOut ps log
    (.list r.1, r.2)
  | .pdict es =>
    let r := extract_dict sep segment position date fmtIn fmtOut es log
    (.dict r.1, r.2)

/-- Two sequential `extract_one` calls as performed by
`universal_element_extract` on a two-element position list (the
`q, d = self.universal_element_extract(segment, [2,4], ...)` pattern). -/
def extract_pair (sep : Separators) (segment : String) (p1 p2 : PosSpec)
    (date : Bool) (fmtIn fmtOut : String) (log : List ElementExtractionFailure) :
    (ExtractVal × ExtractVal) × List ElementExtractionFailure :=
  let r1 := extract_one sep segment (.plist [p1, p2]) false date fmtIn fmtOut p1 none log
  let r2 := extract_one sep segment (.plist [p1, p2]) false date fmtIn fmtOut p2 none r1.2
  ((r1.1, r2.1), r2.2)

/-- Three sequential `extract_one` calls as performed by
`universal_element_extract` on a three-element position list. -/
def extract_triple (sep : Separators) (segment : String) (p1 p2 p3 : PosSpec)
    (date : Bool) (fmtIn fmtOut : String) (log : List ElementExtractionFailure) :
    (ExtractVal × ExtractVal × ExtractVal) × List ElementExtractionFailure :=
  let orig := PosArg.plist [p1, p2, p3]
  let r1 := extract_one sep segment orig false date fmtIn fmtOut p1 none log
  let r2 := extract_one sep segment orig false date fmtIn fmtOut p2 none r1.2
  let r3 := extract_one sep segment orig false date fmtIn fmtOut p3 none r2.2
  ((r1.1, r2.1, r3.1), r3.2)

/-- Four sequential `extract_one` calls (used by the spec-modelled release
handler). -/
def extract_quad (sep : Separators) (segment : String) (p1 p2 p3 p4 : PosSpec)
    (date : Bool) (fmtIn fmtOut : String) (log : List ElementExtractionFailure) :
    (ExtractVal × ExtractVal × ExtractVal × ExtractVal) × List ElementExtractionFailure :=
  let orig := PosArg.plist [p1, p2, p3, p4]
  let r1 := extract_one sep segment orig false date fmtIn fmtOut p1 none log
  let r2 := extract_one sep segment orig false date fmtIn fmtOut p2 none r1.2
  let r3 := extract_one sep segment orig false date fmtIn fmtOut p3 none r2.2
  let r4 := extract_one sep segment orig false date fmtIn fmtOut p4 none r3.2
  ((r1.1, r2.1, r3.1, r4.1), r4.2)

/-- `VALID_LANGUAGES` of src/edi.py. -/
def VALID_LANGUAGES : List String := ["X12", "EDIFACT"]

/-- `DEFAULT_SEPARATORS` of src/edi.py, as a lookup by language and kind
(the EDIFACT segment separator is the apostrophe character). -/
def DEFAULT_SEPARATORS (language kind : String) : String :=
  if language = "X12" then
    if kind = "ELEMENT" then "*" else if kind = "SEGMENT" then "~" else "<"
  else
    if kind = "ELEMENT" then "+" else if kind = "SEGMENT" then "\x27" else ":"

/-- `EDI_SEGMENTS` of src/edi.py: the per-language role-to-segment-prefix
tuples. -/
def EDI_SEGMENTS (language key : String) : List String :=
  if language = "X12" then
    if key = "ENVELOPE" then ["ISA"]
    else if key = "INNER_MESSAGE" then ["GS"]
    else if key = "RECORD_START" then ["BFR"]
    else if key = "ADDRESS" then ["N1"]
    else if key = "LOOP" then ["ST"]
    else if key = "CLAIM_DETAILS" then ["N9"]
    else if key = "PART_DETAILS" then ["LIN"]
    else if key = "DATE_DETAILS" then ["DTM"]
    else if key = "SERVICE_LINE_DETAILS" then ["SSS"]
    else if key = "PROBLEM_RECORD_DETAILS" then ["PRR"]
    else if key = "MESSAGE" then ["MSG"]
    else if key = "TOTAL_CHARGE" then ["AMT"]
    else if key = "ACCUM" then ["SHP", "ATH"]
    else if key = "RELEASE" then ["FST"]
    else if key = "RELEASE_TYPE" then ["SDP"]
    else if key = "QUANTITY" then ["QTY"]
    else if key = "REFERENCE" then ["REF"]
    else if key = "FILE_END" then ["SE"]
    else []
  else if language = "EDIFACT" then
    if key = "ENVELOPE" then ["UNB"]
    else if key = "INNER_MESSAGE" then []
    else if key = "RECORD_START" then ["UNH"]
    else if key = "ADDRESS" then ["NAD"]
    else if key = "LOOP" then ["BGM"]
    else if key = "CLAIM_DETAILS" then []
    else if key = "PART_DETAILS" then ["LIN"]
    else if key = "DATE_DETAILS" then ["DTM"]
    else if key = "SERVICE_LINE_DETAILS" then []
    else if key = "PROBLEM_RECORD_DETAILS" then []
    else if key = "MESSAGE" then ["MSG"]
    else if key = "TOTAL_CHARGE" then []
    else if key = "ACCUM" then [""]
    else if key = "RELEASE" then [""]
    else if key = "RELEASE_TYPE" then ["SCC"]
    else if key = "QUANTITY" then ["QTY"]
    else if key = "REFERENCE" then ["REF"]
    else if key = "FILE_END" then ["UNT"]
    else []
  else []

/-- `FORECAST_CROSSREF['X12']` of src/edi.py. -/
def FORECAST_CROSSREF_X12 : List (String × String) :=
  [("A", "Immediate"), ("B", "Pilot/Prevolume"), ("C", "Firm"), ("D", "Planning"),
   ("Z", "Mutually Defined")]

/-- `TIMING_CROSSREF['X12']` of src/edi.py. -/
def TIMING_CROSSREF_X12 : List (String × String) :=
  [("D", "Discrete"), ("C", "Daily"), ("F", "Flexible Interval"), ("M", "Monthly Bucket"),
   ("W", "Weekly Bucket"), ("Z", "Mutually Defined")]

/-- `DATE_FORMATS` of src/x12.py: GS version prefix to date input format. -/
def DATE_FORMATS : List (String × String) :=
  [("0020", "%y%m%d"), ("0030", "%y%m%d"), ("0040", "%Y%m%d"), ("0050", "%Y%m%d"),
   ("0060", "%Y%m%d")]

/-- `START_SEGMENTS` of src/x12.py: document type to start-segment code. -/
def START_SEGMENTS : List (String × String) :=
  [("861", "BRA"), ("810", "BIG"), ("824", "BGN"), ("997", "AK1"), ("856", "BSN"),
   ("822", "BGN"), ("862", "BSS"), ("142", "BGN"), ("853", "BGN"), ("830", "BFR"),
   ("850", "BEG"), ("855", "BAK"), ("860", "BCH"), ("864", "BMG"), ("820", "TRN"),
   ("832", "BCT")]

/-- The start-segment families of `EdiX12.handle_start`. -/
def GROUP_3 : List String := ["BFR", "BEG", "BAK", "BCH"]

/-- The start-segment families of `EdiX12.handle_start`. -/
def GROUP_2 : List String := ["BSN", "BSS", "BGN", "AK1", "TRN"]

/-- The start-segment families of `EdiX12.handle_start`. -/
def GROUP_1 : List String := ["BRA", "BIG"]

/-- The value of the `record_start_segment` attribute: `default_segments` sets
it to the dialect tuple, while `EdiX12.handle_loop` later overwrites it with a
single string; the Python `in GROUP_n` checks then see either a tuple or a
string. -/
inductive RecordStart where
  | tup (codes : List String)
  | str (code : String)
deriving DecidableEq, Repr

/-- `str(value)` for an extraction result (an `ElementExtractionFailure`
prints as its `segment`, per its `__str__`). -/
def valStr : ExtractVal → String
  | .str s => s
  | .failure f => f.segment

/-- `str(value)` for an optional extraction result (`None` prints as such
inside an f-string). -/
def optValStr : Option ExtractVal → String
  | some v => valStr v
  | none => "None"

/-- Python truthiness of an optional extraction value (`None` and the empty
string are falsy; a failure object is truthy). -/
def pyTruthyVal : Option ExtractVal → Bool
  | none => false
  | some (.str s) => !(s == "")
  | some (.failure _) => true

/-- `X12ReleaseDetails` of src/x12.py: the decoded release line. -/
structure X12ReleaseDetails where
  language : String := "X12"
  date : ExtractVal
  quantity : ExtractVal
  rel_type : Option String
  rel_timing : Option String
deriving DecidableEq, Repr

/-- The `X12ReleaseDetails` constructor: the type and timing codes are decoded
through the crossref tables, unknown codes decoding to `None`. -/
def mkX12ReleaseDetails (date quantity : ExtractVal) (rel_type rel_timing : String) :
    X12ReleaseDetails :=
  { date := date
    quantity := quantity
    rel_type := FORECAST_CROSSREF_X12.lookup rel_type
    rel_timing := TIMING_CROSSREF_X12.lookup rel_timing }

/-- `EdiPart` of src/edi.py, with the attributes the modelled handlers touch;
attributes Python would create later (`last_received_ship_quantity`,
`plant`, ...) are options starting at `none`. -/
structure EdiPart where
  part_no : ExtractVal
  revision : Option ExtractVal := none
  part_rev : String
  po : Option ExtractVal := none
  address : Option ExtractVal := none
  plant : Option ExtractVal := none
  release_list : List X12ReleaseDetails := []
  total_accum : Option ExtractVal := none
  total_accum_start_date : Option ExtractVal := none
  total_accum_end_date : Option ExtractVal := none
  last_received_ship_quantity : Option ExtractVal := none
  last_received_ship_date : Option ExtractVal := none
deriving DecidableEq, Repr

/-- The `EdiPart` constructor (no `po`/`customer_po` keyword arguments in the
modelled flows): `part_rev` is composed from part number and revision at
construction time. -/
def mkEdiPart (part_no : ExtractVal) (revision : Option ExtractVal) : EdiPart :=
  { part_no := part_no
    revision := revision
    part_rev := valStr part_no ++ "-" ++ optValStr revision }

/-- `EdiDocument` of src/edi.py, with the attributes `EdiX12.handle_start`
assigns. -/
structure EdiDocument where
  ref_no : ExtractVal
  part_list : List EdiPart := []
  document_issue_date : Option ExtractVal := none
  horizon_start_date : Option ExtractVal := none
  horizon_end_date : Option ExtractVal := none
deriving DecidableEq, Repr

/-- The mutable `state` dictionary threaded through the handlers. A `none` in
`document_issue_date` models the key being absent (reading it then raises
`KeyError`); `edi_class`, `address` and `part_record` hold Python `None` when
`none`. -/
structure TraversalState where
  document_issue_date : Option ExtractVal := none
  edi_class : Option EdiDocument := none
  edi_class_list : List EdiDocument := []
  address : Option ExtractVal := none
  part_record : Option EdiPart := none
deriving DecidableEq, Repr

/-- The parser instance attributes: language, separators (escape-decoded at
construction), the per-role segment tuples set by `default_segments`, and the
attributes the X12 handlers assign later (as options starting unset). -/
structure EdiParser where
  language : String
  element_separator : String
  subelement_separator : String
  segment_separator : String
  envelope_segment : List String
  inner_message_segment : List String
  record_start_segment : RecordStart
  address_segment : List String
  loop_segment : List String
  claim_details_segment : List String
  part_details_segment : List String
  date_details_segment : List String
  release_type_segment : List String
  release_segment : List String
  qty_details_segment : List String
  reference_segment : List String
  accum_segment : List String
  service_line_details_segment : List String
  problem_record_details_segment : List String
  message_segment : List String
  total_charge_segment : List String
  file_end_segment : List String
  sender_id : Option ExtractVal := none
  sender_qualifier : Option ExtractVal := none
  receiver_id : Option ExtractVal := none
  receiver_qualifier : Option ExtractVal := none
  transaction_no : Option ExtractVal := none
  edi_version : Option String := none
  date_format : Option String := none
  document_type : Option ExtractVal := none
deriving DecidableEq, Repr

/-- The separator pair a parser passes to the extraction engine. -/
def EdiParser.seps (p : EdiParser) : Separators :=
  ⟨p.element_separator, p.subelement_separator⟩

/-- `EdiBase.__init__` (no extra keyword arguments). An invalid language
raises `ValueError`. A separator parameter that is falsy (absent or empty) is
replaced by the dialect default; the source never assigns a truthy override to
the instance, yet unconditionally reads `self.<separator>` to escape-decode
it, so a truthy override leaves that attribute unset and the read raises
`AttributeError`. -/
def ediBaseInit (language : String)
    (element_separator subelement_separator segment_separator : Option String) :
    Except PyError EdiParser :=
  if language ∈ VALID_LANGUAGES then
    let es : Option String :=
      if pyTruthyOptStr element_separator then none
      else some (DEFAULT_SEPARATORS language "ELEMENT")
    let ss : Option String :=
      if pyTruthyOptStr subelement_separator then none
      else some (DEFAULT_SEPARATORS language "SUBELEMENT")
    let gs : Option String :=
      if pyTruthyOptStr segment_separator then none
      else some (DEFAULT_SEPARATORS language "SEGMENT")
    match es, ss, gs with
    | some e, some s, some g =>
      .ok { language := language
            element_separator := pyUnicodeUnescape e
            subelement_separator := pyUnicodeUnescape s
            segment_separator := pyUnicodeUnescape g
            envelope_segment := EDI_SEGMENTS language "ENVELOPE"
            inner_message_segment := EDI_SEGMENTS language "INNER_MESSAGE"
            record_start_segment := .tup (EDI_SEGMENTS language "RECORD_START")
            address_segment := EDI_SEGMENTS language "ADDRESS"
            loop_segment := EDI_SEGMENTS language "LOOP"
            claim_details_segment := EDI_SEGMENTS language "CLAIM_DETAILS"
            part_details_segment := EDI_SEGMENTS language "PART_DETAILS"
            date_details_segment := EDI_SEGMENTS language "DATE_DETAILS"
            release_type_segment := EDI_SEGMENTS language "RELEASE_TYPE"
            release_segment := EDI_SEGMENTS language "RELEASE"
            qty_details_segment := EDI_SEGMENTS language "QUANTITY"
            reference_segment := EDI_SEGMENTS language "REFERENCE"
            accum_segment := EDI_SEGMENTS language "ACCUM"
            service_line_details_segment := EDI_SEGMENTS language "SERVICE_LINE_DETAILS"
            problem_record_details_segment := EDI_SEGMENTS language "PROBLEM_RECORD_DETAILS"
            message_segment := EDI_SEGMENTS language "MESSAGE"
            total_charge_segment := EDI_SEGMENTS language "TOTAL_CHARGE"
            file_end_segment := EDI_SEGMENTS language "FILE_END" }
    | _, _, _ => .error .attributeError
  else .error .valueError

/-- `EdiX12.__init__`: delegates to the base constructor with language X12. -/
def ediX12Init (element_separator subelement_separator segment_separator : Option String) :
    Except PyError EdiParser :=
  ediBaseInit "X12" element_separator subelement_separator segment_separator

/-- The result of one handler invocation: the updated parser attributes,
failure log and traversal state, or the Python exception the source raises. -/
abbrev HandlerResult :=
  Except PyError (EdiParser × List ElementExtractionFailure × TraversalState)

/-- `EdiX12.handle_envelope`: extracts the interchange sender/receiver fields
and the transaction number from fixed ISA element positions. -/
def handle_envelope (p : EdiParser) (log : List ElementExtractionFailure)
    (segment : String) (st : TraversalState) : HandlerResult :=
  let r1 := extract_single p.seps segment (.pint 6) false DFLT_DATE_IN DFLT_DATE_OUT log
  let r2 := extract_single p.seps segment (.pint 5) false DFLT_DATE_IN DFLT_DATE_OUT r1.2
  let r3 := extract_single p.seps segment (.pint 8) false DFLT_DATE_IN DFLT_DATE_OUT r2.2
  let r4 := extract_single p.seps segment (.pint 7) false DFLT_DATE_IN DFLT_DATE_OUT r3.2
  let r5 := extract_single p.seps segment (.pint 13) false DFLT_DATE_IN DFLT_DATE_OUT r4.2
  .ok ({ p with
          sender_id := some r1.1
          sender_qualifier := some r2.1
          receiver_id := some r3.1
          receiver_qualifier := some r4.1
          transaction_no := some r5.1 }, r5.2, st)

/-- `EdiX12.handle_inner`: takes the first four characters of GS element 8 as
the version token, derives the active date input format from `DATE_FORMATS`
(falling back to `%Y%m%d`), and stores the document issue date extracted from
element 4 with that format. Slicing `[:4]` a failure object would raise
`TypeError`. -/
def handle_inner (p : EdiParser) (log : List ElementExtractionFailure)
    (segment : String) (st : TraversalState) : HandlerResult :=
  let r1 := extract_single p.seps segment (.pint 8) false DFLT_DATE_IN DFLT_DATE_OUT log
  match r1.1 with
  | .failure _ => .error .typeError
  | .str s =>
    let version := pyTake s 4
    let fmt := (DATE_FORMATS.lookup version).getD "%Y%m%d"
    let r2 := extract_single p.seps segment (.pint 4) true fmt DFLT_DATE_OUT r1.2
    .ok ({ p with edi_version := some version, date_format := some fmt }, r2.2,
         { st with document_issue_date := some r2.1 })

/-- `EdiX12.handle_loop`: extracts the document type from element 1 and
resolves the start-segment code through `START_SEGMENTS`; a lookup miss (or a
failure object used as the dict key) raises `KeyError`. (On the error path the
source has already assigned `document_type`; the model returns the error
without the partial assignment, which no modelled flow observes.) -/
def handle_loop (p : EdiParser) (log : List ElementExtractionFailure)
    (segment : String) (st : TraversalState) : HandlerResult :=
  let r1 := extract_single p.seps segment (.pint 1) false DFLT_DATE_IN DFLT_DATE_OUT log
  match r1.1 with
  | .failure _ => .error .keyError
  | .str t =>
    match START_SEGMENTS.lookup t with
    | none => .error .keyError
    | some code =>
      .ok ({ p with document_type := some (.str t), record_start_segment := .str code },
           r1.2, st)

/-- The record-number element index resolved in `EdiX12.handle_start`: the
string set by `handle_loop` is tested against the three groups; the initial
tuple value matches none of them, giving index 0. -/
def recordNoIndex : RecordStart → Int
  | .str s => if s ∈ GROUP_3 then 3 else if s ∈ GROUP_2 then 2 else if s ∈ GROUP_1 then 1 else 0
  | .tup _ => 0

/-- `EdiX12.handle_start`: extracts the record number at the group-resolved
index, seals any open document onto the completed list, and opens a new
document carrying the stored issue date and the horizon dates extracted from
elements 6 and 7 with the active date format. A missing
`state['document_issue_date']` key raises `KeyError` and a missing
`self.date_format` attribute raises `AttributeError` (on those error paths the
source has already sealed the open document; the model returns the error
without the partial mutation, which no modelled flow observes). -/
def handle_start (p : EdiParser) (log : List ElementExtractionFailure)
    (segment : String) (st : TraversalState) : HandlerResult :=
  let r1 := extract_single p.seps segment (.pint (recordNoIndex p.record_start_segment))
      false DFLT_DATE_IN DFLT_DATE_OUT log
  let st1 :=
    match st.edi_class with
    | some d => { st with edi_class_list := st.edi_class_list ++ [d], edi_class := none }
    | none => st
  match st.document_issue_date with
  | none => .error .keyError
  | some did =>
    match p.date_format with
    | none => .error .attributeError
    | some fmt =>
      let r2 := extract_pair p.seps segment (.pint 6) (.pint 7) true fmt DFLT_DATE_OUT r1.2
      let doc : EdiDocument :=
        { ref_no := r1.1
          document_issue_date := some did
          horizon_start_date := some r2.1.1
          horizon_end_date := some r2.1.2 }
      .ok (p, r2.2, { st1 with edi_class := some doc })

/-- `EdiX12.handle_address`: a ship-to qualifier stores the address from
element 4; whenever an address and an open part are both present, the address
becomes the part's plant. -/
def handle_address (p : EdiParser) (log : List ElementExtractionFailure)
    (segment : String) (st : TraversalState) : HandlerResult :=
  let r1 := extract_single p.seps segment (.pint 1) false DFLT_DATE_IN DFLT_DATE_OUT log
  let a :=
    if r1.1 = .str "ST" then
      let r2 := extract_single p.seps segment (.pint 4) false DFLT_DATE_IN DFLT_DATE_OUT r1.2
      ({ st with address := some r2.1 }, r2.2)
    else (st, r1.2)
  let st1 := a.1
  let st2 :=
    if pyTruthyVal st1.address && st1.part_record.isSome then
      { st1 with part_record := st1.part_record.map (fun pr => { pr with plant := st1.address }) }
    else st1
  .ok (p, a.2, st2)

/-- `EdiX12.handle_accum`: dispatches on the accumulation qualifier from
element 1 and, when a part is open, assigns the qualifier-specific positions
(as date extractions with the default input format) onto it. -/
def handle_accum (p : EdiParser) (log : List ElementExtractionFailure)
    (segment : String) (st : TraversalState) : HandlerResult :=
  let r1 := extract_single p.seps segment (.pint 1) false DFLT_DATE_IN DFLT_DATE_OUT log
  match st.part_record with
  | none => .ok (p, r1.2, st)
  | some pr =>
    if r1.1 = .str "01" then
      let r2 := extract_pair p.seps segment (.pint 2) (.pint 4) true DFLT_DATE_IN DFLT_DATE_OUT r1.2
      .ok (p, r2.2, { st with part_record := some { pr with
            last_received_ship_quantity := some r2.1.1
            last_received_ship_date := some r2.1.2 } })
    else if r1.1 = .str "02" then
      let r3 := extract_triple p.seps segment (.pint 2) (.pint 4) (.pint 6) true
          DFLT_DATE_IN DFLT_DATE_OUT r1.2
      .ok (p, r3.2, { st with part_record := some { pr with
            total_accum := some r3.1.1
            total_accum_start_date := some r3.1.2.1
            total_accum_end_date := some r3.1.2.2 } })
    else if r1.1 = .str "PQ" then
      let r4 := extract_triple p.seps segment (.pint 3) (.pint 5) (.pint 2) true
          DFLT_DATE_IN DFLT_DATE_OUT r1.2
      .ok (p, r4.2, { st with part_record := some { pr with
            total_accum := some r4.1.1
            total_accum_start_date := some r4.1.2.1
            total_accum_end_date := some r4.1.2.2 } })
    else .ok (p, r1.2, st)

/-- Modelled from the spec: `EdiX12` in src/x12.py supplies no body for the
abstract `handle_part` declared in src/edi.py, so the PartDetails handler is
missing from the sources. Per the spec ("PartDetails ...: open/append a
Part ... follow the same extract-then-assign pattern", with part creation "on
encountering a part-detail segment"), it opens a new Part from the segment,
appends it to the open Document's part list and makes it the currently active
part. The element positions chosen for part number (3) and revision (5) are a
dialect-specific mapping the spec leaves open. (Python would alias the part
stored in the document with the active part; later mutations through
`part_record` are modelled only on the active copy.) -/
def handle_part (p : EdiParser) (log : List ElementExtractionFailure)
    (segment : String) (st : TraversalState) : HandlerResult :=
  let r := extract_pair p.seps segment (.pint 3) (.pint 5) false DFLT_DATE_IN DFLT_DATE_OUT log
  let part := mkEdiPart r.1.1 (some r.1.2)
  let st1 :=
    match st.edi_class with
    | some d =>
      { st with edi_class := some { d with part_list := d.part_list ++ [part] }
                part_record := some part }
    | none => { st with part_record := some part }
  .ok (p, r.2, st1)

/-- Modelled from the spec: `EdiX12` in src/x12.py supplies no body for the
abstract `handle_release` declared in src/edi.py, so the Release handler is
missing from the sources. Per the spec ("Release ...: append/construct a
Release" with attributes date, quantity, release-type and release-timing
decoded through the crossref tables), it builds an `X12ReleaseDetails` from
the release segment and appends it to the active part's release list; it is a
no-op when no part is open. The element positions chosen (quantity 1,
forecast qualifier 2, timing 3, date 4, the conventional FST layout) are a
dialect-specific mapping the spec leaves open. -/
def handle_release (p : EdiParser) (log : List ElementExtractionFailure)
    (segment : String) (st : TraversalState) : HandlerResult :=
  match st.part_record with
  | none => .ok (p, log, st)
  | some pr =>
    let r := extract_quad p.seps segment (.pint 1) (.pint 2) (.pint 3) (.pint 4) false
        DFLT_DATE_IN DFLT_DATE_OUT log
    let rel := mkX12ReleaseDetails r.1.2.2.2 r.1.1 (valStr r.1.2.1) (valStr r.1.2.2.1)
    .ok (p, r.2, { st with part_record := some { pr with
          release_list := pr.release_list ++ [rel] } })

/-- Modelled from the spec: `EdiX12` in src/x12.py supplies no body for the
abstract `handle_end` declared in src/edi.py, so the FileEnd handler is
missing from the sources. Per the spec ("for FileEnd, seal the open
Document"), it appends the open document to the completed list and clears the
open slot; it is a no-op when no document is open. -/
def handle_end (p : EdiParser) (log : List ElementExtractionFailure)
    (segment : String) (st : TraversalState) : HandlerResult :=
  match st.edi_class with
  | some d =>
    .ok (p, log, { st with edi_class := none, edi_class_list := st.edi_class_list ++ [d] })
  | none => .ok (p, log, st)

/-- The nine semantic roles keyed by `DISPATCH_MAP` in `EdiBase.__init__`. -/
inductive Role where
  | envelope
  | inner
  | start
  | address
  | part
  | release
  | accum
  | fileEnd
  | loop
deriving DecidableEq, Repr

/-- The nine roles in the order `DISPATCH_MAP` lists them. -/
def ALL_ROLES : List Role :=
  [.envelope, .inner, .start, .address, .part, .release, .accum, .fileEnd, .loop]

/-- The handler bound to each role. -/
def roleHandler : Role →
    EdiParser → List ElementExtractionFailure → String → TraversalState → HandlerResult
  | .envelope => handle_envelope
  | .inner => handle_inner
  | .start => handle_start
  | .address => handle_address
  | .part => handle_part
  | .release => handle_release
  | .accum => handle_accum
  | .fileEnd => handle_end
  | .loop => handle_loop

/-- The segment-code key bound to each role (for the start role either the
dialect tuple or the single code `handle_loop` resolved). -/
def roleCodes (p : EdiParser) : Role → List String
  | .envelope => p.envelope_segment
  | .inner => p.inner_message_segment
  | .start => (match p.record_start_segment with | .tup t => t | .str s => [s])
  | .address => p.address_segment
  | .part => p.part_details_segment
  | .release => p.release_segment
  | .accum => p.accum_segment
  | .fileEnd => p.file_end_segment
  | .loop => p.loop_segment

/-- The `DISPATCH_MAP` of `EdiBase.__init__`: segment-code keys paired with
their role handlers. -/
def DISPATCH_MAP (p : EdiParser) :
    List (List String ×
      (EdiParser → List ElementExtractionFailure → String → TraversalState → HandlerResult)) :=
  ALL_ROLES.map (fun r => (roleCodes p r, roleHandler r))

/-- The parser attributes `EdiX12()` (no overrides) produces: X12 defaults,
escape-decoding leaving them unchanged. -/
def x12_default : EdiParser :=
  { language := "X12"
    element_separator := "*"
    subelement_separator := "<"
    segment_separator := "~"
    envelope_segment := ["ISA"]
    inner_message_segment := ["GS"]
    record_start_segment := .tup ["BFR"]
    address_segment := ["N1"]
    loop_segment := ["ST"]
    claim_details_segment := ["N9"]
    part_details_segment := ["LIN"]
    date_details_segment := ["DTM"]
    release_type_segment := ["SDP"]
    release_segment := ["FST"]
    qty_details_segment := ["QTY"]
    reference_segment := ["REF"]
    accum_segment := ["SHP", "ATH"]
    service_line_details_segment := ["SSS"]
    problem_record_details_segment := ["PRR"]
    message_segment := ["MSG"]
    total_charge_segment := ["AMT"]
    file_end_segment := ["SE"] }

/-- The X12 default separators, for exercising the extractor directly. -/
def sepX12 : Separators := ⟨"*", "<"⟩

/-- A concrete part used by the concrete-input theorems. -/
def examplePart : EdiPart := mkEdiPart (.str "PN100") none

/-- A concrete open document used by the concrete-input theorems. -/
def exampleDoc : EdiDocument := { ref_no := .str "R1" }

theorem sanity_pySplit : pySplit "*" "SHP*01*500" = ["SHP", "01", "500"] := by rfl

theorem sanity_pyIndex_neg : pyIndex ["A", "B", "C"] (-1) = some "C" := by rfl

theorem sanity_strptime :
    strptime "20250115" "%Y%m%d" = some (2025, 1, 15) ∧ strptime "BAD" "%Y%m%d" = none := by
  exact ⟨by rfl, by rfl⟩

theorem x12_default_is_init : ediX12Init none none none = .ok x12_default := by rfl

theorem extract_one_log (sep : Separators) (segment : String) (origPos : PosArg)
    (sd date : Bool) (fmtIn fmtOut : String) (p : PosSpec) (fd : Option Bool)
    (log : List ElementExtractionFailure) :
    (extract_one sep segment origPos sd date fmtIn fmtOut p fd log).2
      = log ++ leafFailures (extract_one sep segment origPos sd date fmtIn fmtOut p fd log).1 := by
  unfold extract_one dateStep handle_extraction_error
  repeat' split
  all_goals first
    | rfl
    | simp [leafFailures]

theorem extract_list_log (sep : Separators) (segment : String) (origPos : PosArg)
    (date : Bool) (fmtIn fmtOut : String) (ps : List PosSpec) :
    ∀ log : List ElementExtractionFailure,
      (extract_list sep segment origPos date fmtIn fmtOut ps log).2
        = log ++ (extract_list sep segment origPos date fmtIn fmtOut ps log).1.flatMap
            leafFailures := by
  induction ps with
  | nil => intro log; simp [extract_list]
  | cons p ps ih =>
    intro log
    simp only [extract_list, List.flatMap_cons]
    rw [ih, extract_one_log]
    simp

theorem extract_dict_log (sep : Separators) (segment : String) (origPos : PosArg)
    (date : Bool) (fmtIn fmtOut : String) (es : List (String × DictSpec)) :
    ∀ log : List ElementExtractionFailure,
      (extract_dict sep segment origPos date fmtIn fmtOut es log).2
        = log ++ (extract_dict sep segment origPos date fmtIn fmtOut es log).1.flatMap
            (fun kv => leafFailures kv.2) := by
  induction es with
  | nil => intro log; simp [extract_dict]
  | cons e es ih =>
    intro log
    simp only [extract_dict, List.flatMap_cons]
    rw [ih, extract_one_log]
    simp

/-- C7: for every extraction call, the new failure log is the old log with
exactly the failures appearing in the returned result appended, in leaf
order: every failure returned at a leaf is also logged, the log is append-only
and ordered by occurrence, and nothing else is logged. -/
theorem extraction_failures_logged (sep : Separators) (segment : String)
    (position : PosArg) (date : Bool) (fmtIn fmtOut : String)
    (log : List ElementExtractionFailure) :
    (universal_element_extract sep segment position date fmtIn fmtOut log).2
      = log ++ resultFailures
          (universal_element_extract sep segment position date fmtIn fmtOut log).1 := by
  cases position with
  | single p =>
    simp only [universal_element_extract, extract_single, resultFailures]
    exact extract_one_log ..
  | plist ps =>
    simp only [universal_element_extract, resultFailures]
    exact extract_list_log ..
  | pdict es =>
    simp only [universal_element_extract, resultFailures]
    exact extract_dict_log ..

/-- C5: when a segment's element count is at most the requested element index,
extraction returns (rather than raising) an Element Index failure whose
`segment` field is that exact segment and whose `position` field is that exact
index, and logs it. -/
theorem element_index_out_of_range_failure (sep : Separators) (seg : String)
    (i : Int) (date : Bool) (fmtIn fmtOut : String)
    (log : List ElementExtractionFailure)
    (h : ((pySplit sep.element_separator seg).length : Int) ≤ i) :
    universal_element_extract sep seg (.single (.pint i)) date fmtIn fmtOut log
      = (.single (.failure (mkElemIndexFailure seg i)), log ++ [mkElemIndexFailure seg i])
    ∧ (mkElemIndexFailure seg i).failure_point = "Element Index"
    ∧ (mkElemIndexFailure seg i).segment = seg
    ∧ (mkElemIndexFailure seg i).position = .int i := by
  have h0 : 0 ≤ i := le_trans (Int.ofNat_nonneg _) h
  have hnone : pyIndex (pySplit sep.element_separator seg) i = none := by
    unfold pyIndex
    rw [if_pos h0, List.get?_eq_getElem?]
    exact List.getElem?_eq_none (by omega)
  refine ⟨?_, rfl, rfl, rfl⟩
  simp [universal_element_extract, extract_single, extract_one, elemIndexOf, hnone,
        handle_extraction_error]

theorem element_index_out_of_range_failure_witness :
    universal_element_extract sepX12 "ABC" (.single (.pint 5)) false DFLT_DATE_IN DFLT_DATE_OUT []
      = (.single (.failure (mkElemIndexFailure "ABC" 5)), [mkElemIndexFailure "ABC" 5]) := by
  have h := element_index_out_of_range_failure sepX12 "ABC" 5 false DFLT_DATE_IN DFLT_DATE_OUT []
      (by decide)
  simpa using h.1

/-- C10: a negative element index whose absolute value is at most the
segment's element count extracts the element counted from the end of the
segment (index -1 giving the last element) instead of producing an Element
Index failure. -/
theorem negative_index_from_end (sep : Separators) (seg : String) (i : Int)
    (log : List ElementExtractionFailure)
    (hneg : i < 0) (hle : i.natAbs ≤ (pySplit sep.element_separator seg).length) :
    ∃ e, (pySplit sep.element_separator seg).get?
          ((pySplit sep.element_separator seg).length - i.natAbs) = some e
      ∧ universal_element_extract sep seg (.single (.pint i)) false DFLT_DATE_IN DFLT_DATE_OUT log
          = (.single (.str e), log) := by
  set xs := pySplit sep.element_separator seg with hxs
  have hlt : xs.length - i.natAbs < xs.length := by omega
  obtain ⟨e, he⟩ : ∃ e, xs.get? (xs.length - i.natAbs) = some e := by
    rw [List.get?_eq_getElem?]
    exact ⟨xs[xs.length - i.natAbs], List.getElem?_eq_getElem hlt⟩
  refine ⟨e, he, ?_⟩
  have hidx : pyIndex xs i = some e := by
    unfold pyIndex
    rw [if_neg (by omega), if_pos (by omega)]
    have ht : ((xs.length : Int) + i).toNat = xs.length - i.natAbs := by omega
    rw [ht, he]
  simp [universal_element_extract, extract_single, extract_one, elemIndexOf, subIndexOf,
        ← hxs, hidx, dateStep]

theorem negative_index_from_end_witness :
    ∃ e, (pySplit "*" "A*B*C").get? ((pySplit "*" "A*B*C").length - (-1 : Int).natAbs) = some e
      ∧ universal_element_extract sepX12 "A*B*C" (.single (.pint (-1))) false
          DFLT_DATE_IN DFLT_DATE_OUT [] = (.single (.str e), []) := by
  exact negative_index_from_end sepX12 "A*B*C" (-1) [] (by decide) (by decide)

/-- C4 (counterexample to the claim as stated): a single-position request in
the element-plus-subelement form with the date option set and unparsable text
returns the raw text, not a Date-conversion failure, and logs nothing. -/
theorem tuple_date_request_no_failure :
    universal_element_extract sepX12 "DTM*BAD" (.single (.ptup 1 0)) true
        "%Y%m%d" "%m-%d-%Y" []
      = (.single (.str "BAD"), []) := by rfl

/-- C4 (amended): with the date option set and text that does not parse under
the input format, the plain element-index form returns and logs a
Date-conversion failure carrying both format strings, while the
element-plus-subelement form returns the unconverted text with no failure
(only a plain `int` position counts as `single_date`). -/
theorem single_date_enforcement (sep : Separators) (seg e sub fmtIn fmtOut : String)
    (i j : Int) (log : List ElementExtractionFailure)
    (hi : pyIndex (pySplit sep.element_separator seg) i = some e)
    (hsub : pyIndex (pySplit sep.subelement_separator e) j = some sub)
    (hd : strptime e fmtIn = none)
    (hds : strptime sub fmtIn = none) :
    universal_element_extract sep seg (.single (.pint i)) true fmtIn fmtOut log
      = (.single (.failure (mkDateFailure seg (.single (.pint i)) e none fmtIn fmtOut)),
         log ++ [mkDateFailure seg (.single (.pint i)) e none fmtIn fmtOut])
    ∧ universal_element_extract sep seg (.single (.ptup i j)) true fmtIn fmtOut log
      = (.single (.str sub), log)
    ∧ (mkDateFailure seg (.single (.pint i)) e none fmtIn fmtOut).failure_point
        = "Date conversion"
    ∧ (mkDateFailure seg (.single (.pint i)) e none fmtIn fmtOut).date_format_in = fmtIn
    ∧ (mkDateFailure seg (.single (.pint i)) e none fmtIn fmtOut).date_format_out = fmtOut := by
  refine ⟨?_, ?_, rfl, rfl, rfl⟩
  · simp [universal_element_extract, extract_single, extract_one, elemIndexOf, subIndexOf,
          hi, dateStep, hd, handle_extraction_error]
  · simp [universal_element_extract, extract_single, extract_one, elemIndexOf, subIndexOf,
          hi, hsub, dateStep, hds]

theorem single_date_enforcement_witness :
    universal_element_extract sepX12 "DTM*BAD" (.single (.pint 1)) true
        "%Y%m%d" "%m-%d-%Y" []
      = (.single (.failure (mkDateFailure "DTM*BAD" (.single (.pint 1)) "BAD" none
            "%Y%m%d" "%m-%d-%Y")),
         [mkDateFailure "DTM*BAD" (.single (.pint 1)) "BAD" none "%Y%m%d" "%m-%d-%Y"]) := by
  have h := single_date_enforcement sepX12 "DTM*BAD" "BAD" "BAD" "%Y%m%d" "%m-%d-%Y" 1 0 []
      (by decide) (by decide) (by decide) (by decide)
  simpa using h.1

/-- C1 (the code contradicts the claim): constructing a parser with any truthy
delimiter override raises `AttributeError`, because `EdiBase.__init__` only
assigns the dialect default when the override is falsy and then
unconditionally reads the never-assigned instance attribute to escape-decode
it; construction with an explicit override therefore never succeeds. -/
theorem ediBaseInit_override_attributeError (language s : String)
    (hlang : language ∈ VALID_LANGUAGES) (hs : s ≠ "") :
    ediBaseInit language (some s) none none = .error .attributeError
    ∧ ediBaseInit language none (some s) none = .error .attributeError
    ∧ ediBaseInit language none none (some s) = .error .attributeError := by
  refine ⟨?_, ?_, ?_⟩ <;> simp [ediBaseInit, hlang, pyTruthyOptStr, hs]

theorem ediBaseInit_override_attributeError_witness :
    ediBaseInit "X12" (some "|") none none = .error .attributeError
    ∧ ediBaseInit "X12" none (some "|") none = .error .attributeError
    ∧ ediBaseInit "X12" none none (some "|") = .error .attributeError :=
  ediBaseInit_override_attributeError "X12" "|" (by decide) (by decide)

/-- C3 (counterexample to the claim as stated): an accumulation segment with
qualifier 01, an open part and an unparsable date at element 4 leaves the
failure log empty — no Date-conversion failure is logged — while both fields
are assigned the raw texts. -/
theorem handle_accum_baddate_no_failure_logged :
    handle_accum x12_default [] "SHP*01*500*X*BADDATE" { part_record := some examplePart }
      = .ok (x12_default, [],
          { part_record := some { examplePart with
              last_received_ship_quantity := some (.str "500")
              last_received_ship_date := some (.str "BADDATE") } }) := by rfl

/-- C3 (amended): accumulation qualifier 01 with an open part assigns
`last_received_ship_quantity` and `last_received_ship_date` from elements 2
and 4 with date parsing attempted; when neither text parses under the default
input format, the raw texts are stored and nothing is logged (the
list-position extraction used here suppresses Date-conversion failures). -/
theorem handle_accum_01_sets_fields (p : EdiParser)
    (log : List ElementExtractionFailure) (seg : String) (st : TraversalState)
    (pr : EdiPart) (e2 e4 : String)
    (hpr : st.part_record = some pr)
    (h1 : pyIndex (pySplit p.element_separator seg) 1 = some "01")
    (h2 : pyIndex (pySplit p.element_separator seg) 2 = some e2)
    (h4 : pyIndex (pySplit p.element_separator seg) 4 = some e4)
    (hd2 : strptime e2 DFLT_DATE_IN = none)
    (hd4 : strptime e4 DFLT_DATE_IN = none) :
    handle_accum p log seg st
      = .ok (p, log, { st with part_record := some { pr with
            last_received_ship_quantity := some (.str e2)
            last_received_ship_date := some (.str e4) } }) := by
  simp [handle_accum, extract_single, extract_pair, extract_one, elemIndexOf, subIndexOf,
        EdiParser.seps, hpr, h1, h2, h4, dateStep, hd2, hd4]

theorem handle_accum_01_sets_fields_witness :
    handle_accum x12_default [] "ATH*01*250*X*NOTADATE" { part_record := some examplePart }
      = .ok (x12_default, [],
          { part_record := some { examplePart with
              last_received_ship_quantity := some (.str "250")
              last_received_ship_date := some (.str "NOTADATE") } }) := by
  exact handle_accum_01_sets_fields x12_default [] "ATH*01*250*X*NOTADATE"
    { part_record := some examplePart } examplePart "250" "NOTADATE"
    rfl (by decide) (by decide) (by decide) (by decide) (by decide)

/-- A parser with the active date format set, as `handle_inner` leaves it. -/
def x12_with_fmt : EdiParser := { x12_default with date_format := some "%Y%m%d" }

/-- A traversal state with an open document and a stored issue date. -/
def stateOpenDoc : TraversalState :=
  { edi_class := some exampleDoc, document_issue_date := some (.str "01-01-2024") }

/-- C6: handling a document-start segment while a document is open appends
that very document (its field values unchanged) to the completed list, growing
it by exactly one, before a new document is opened. -/
theorem handle_start_seals_open_document (p : EdiParser)
    (log : List ElementExtractionFailure) (seg : String) (st : TraversalState)
    (d : EdiDocument) (did : ExtractVal) (fmt : String)
    (hopen : st.edi_class = some d)
    (hdid : st.document_issue_date = some did)
    (hfmt : p.date_format = some fmt) :
    ∃ log2 st2, handle_start p log seg st = .ok (p, log2, st2)
      ∧ st2.edi_class_list = st.edi_class_list ++ [d]
      ∧ st2.edi_class_list.length = st.edi_class_list.length + 1
      ∧ ∃ nd, st2.edi_class = some nd := by
  simp only [handle_start, hopen, hdid, hfmt]
  exact ⟨_, _, rfl, by simp, by simp, ⟨_, rfl⟩⟩

theorem handle_start_seals_open_document_witness :
    ∃ log2 st2, handle_start x12_with_fmt [] "BFR*00*R2*DL*20240101*20240108" stateOpenDoc
        = .ok (x12_with_fmt, log2, st2)
      ∧ st2.edi_class_list = stateOpenDoc.edi_class_list ++ [exampleDoc]
      ∧ st2.edi_class_list.length = stateOpenDoc.edi_class_list.length + 1
      ∧ ∃ nd, st2.edi_class = some nd :=
  handle_start_seals_open_document x12_with_fmt [] "BFR*00*R2*DL*20240101*20240108"
    stateOpenDoc exampleDoc (.str "01-01-2024") "%Y%m%d" rfl rfl rfl

/-- C8: `handle_inner` takes the first four characters of element 8 as the
version token and sets the active date input format from `DATE_FORMATS`; the
token 0020 maps to the two-digit-year format and a token absent from the
table (such as 9999) falls back to the four-digit-year format. -/
theorem handle_inner_date_format (p : EdiParser)
    (log : List ElementExtractionFailure) (seg : String) (st : TraversalState)
    (s : String)
    (h8 : pyIndex (pySplit p.element_separator seg) 8 = some s) :
    (∃ log2 st2, handle_inner p log seg st
        = .ok ({ p with
                 edi_version := some (pyTake s 4)
                 date_format := some ((DATE_FORMATS.lookup (pyTake s 4)).getD "%Y%m%d") },
               log2, st2))
    ∧ DATE_FORMATS.lookup "0020" = some "%y%m%d"
    ∧ DATE_FORMATS.lookup "9999" = none := by
  refine ⟨?_, rfl, rfl⟩
  simp only [handle_inner, extract_single, extract_one, elemIndexOf, subIndexOf,
             EdiParser.seps, h8, dateStep]
  exact ⟨_, _, rfl⟩

theorem handle_inner_date_format_witness :
    (∃ log2 st2, handle_inner x12_default [] "GS*PS*S*R*240101*1200*1*X*002004" {}
        = .ok ({ x12_default with
                 edi_version := some "0020"
                 date_format := some "%y%m%d" },
               log2, st2))
    ∧ (∃ log2 st2, handle_inner x12_default [] "GS*PS*S*R*20240101*1200*1*X*999900" {}
        = .ok ({ x12_default with
                 edi_version := some "9999"
                 date_format := some "%Y%m%d" },
               log2, st2)) := by
  constructor
  · exact (handle_inner_date_format x12_default [] "GS*PS*S*R*240101*1200*1*X*002004" {}
      "002004" (by decide)).1
  · exact (handle_inner_date_format x12_default [] "GS*PS*S*R*20240101*1200*1*X*999900" {}
      "999900" (by decide)).1

/-- C9: when the loop handler resolves document type 850, the start-segment
code becomes BEG, and the subsequent start handler (BEG being in the third
start-segment family) takes the new document's record number from element
index 3 of the start segment. -/
theorem document_850_record_number (p : EdiParser)
    (log : List ElementExtractionFailure) (seg : String) (st : TraversalState)
    (h850 : pyIndex (pySplit p.element_separator seg) 1 = some "850") :
    START_SEGMENTS.lookup "850" = some "BEG"
    ∧ (∃ log1, handle_loop p log seg st
        = .ok ({ p with
                 document_type := some (.str "850")
                 record_start_segment := .str "BEG" }, log1, st))
    ∧ (∀ (seg2 : String) (st2 : TraversalState) (did : ExtractVal) (fmt : String),
        st2.document_issue_date = some did → p.date_format = some fmt →
        ∃ log2 st3 nd,
          handle_start { p with
              document_type := some (.str "850")
              record_start_segment := .str "BEG" } log seg2 st2
            = .ok ({ p with
                     document_type := some (.str "850")
                     record_start_segment := .str "BEG" }, log2, st3)
          ∧ st3.edi_class = some nd
          ∧ nd.ref_no
              = (extract_single p.seps seg2 (.pint 3) false DFLT_DATE_IN DFLT_DATE_OUT log).1) := by
  refine ⟨rfl, ?_, ?_⟩
  · simp only [handle_loop, extract_single, extract_one, elemIndexOf, subIndexOf,
               EdiParser.seps, h850, dateStep]
    exact ⟨_, rfl⟩
  · intro seg2 st2 did fmt hdid2 hfmt
    simp only [handle_start, recordNoIndex, hdid2, hfmt]
    norm_num [GROUP_3]
    exact ⟨_, _, ⟨rfl, rfl⟩, _, rfl, rfl⟩

theorem document_850_record_number_witness :
    START_SEGMENTS.lookup "850" = some "BEG"
    ∧ (∃ log1, handle_loop x12_with_fmt [] "ST*850*0001" stateOpenDoc
        = .ok ({ x12_with_fmt with
                 document_type := some (.str "850")
                 record_start_segment := .str "BEG" }, log1, stateOpenDoc))
    ∧ (∃ log2 st3 nd,
        handle_start { x12_with_fmt with
            document_type := some (.str "850")
            record_start_segment := .str "BEG" } [] "BEG*00*NE*PO12345" stateOpenDoc
          = .ok ({ x12_with_fmt with
                   document_type := some (.str "850")
                   record_start_segment := .str "BEG" }, log2, st3)
        ∧ st3.edi_class = some nd
        ∧ nd.ref_no = (extract_single x12_with_fmt.seps "BEG*00*NE*PO12345" (.pint 3) false
            DFLT_DATE_IN DFLT_DATE_OUT []).1) := by
  have h := document_850_record_number x12_with_fmt [] "ST*850*0001" stateOpenDoc (by decide)
  exact ⟨h.1, h.2.1, h.2.2 "BEG*00*NE*PO12345" stateOpenDoc (.str "01-01-2024") "%Y%m%d" rfl rfl⟩

/-- C2: an X12 parser with no overrides is constructed successfully, its
dispatch map binds a handler to every one of the nine roles, and the
(spec-modelled) PartDetails, Release and FileEnd handlers respectively open
and append a part to the open document, construct and append a release to the
active part, and seal the open document. -/
theorem x12_handlers_complete :
    (∃ q, ediX12Init none none none = .ok q)
    ∧ (∀ p : EdiParser, (DISPATCH_MAP p).length = 9)
    ∧ (∀ (p : EdiParser) (log : List ElementExtractionFailure) (seg : String)
        (st : TraversalState) (d : EdiDocument), st.edi_class = some d →
        ∃ pt log2, handle_part p log seg st
          = .ok (p, log2, { st with
              edi_class := some { d with part_list := d.part_list ++ [pt] }
              part_record := some pt }))
    ∧ (∀ (p : EdiParser) (log : List ElementExtractionFailure) (seg : String)
        (st : TraversalState) (pr : EdiPart), st.part_record = some pr →
        ∃ rel log2, handle_release p log seg st
          = .ok (p, log2, { st with part_record := some { pr with
              release_list := pr.release_list ++ [rel] } }))
    ∧ (∀ (p : EdiParser) (log : List ElementExtractionFailure) (seg : String)
        (st : TraversalState) (d : EdiDocument), st.edi_class = some d →
        handle_end p log seg st
          = .ok (p, log, { st with
              edi_class := none
              edi_class_list := st.edi_class_list ++ [d] })) := by
  refine ⟨⟨x12_default, x12_default_is_init⟩, fun p => rfl, ?_, ?_, ?_⟩
  · intro p log seg st d hd
    simp only [handle_part, hd]
    exact ⟨_, _, rfl⟩
  · intro p log seg st pr hpr
    simp only [handle_release, hpr]
    exact ⟨_, _, rfl⟩
  · intro p log seg st d hd
    simp only [handle_end, hd]

theorem x12_handlers_complete_witness :
    (∃ q, ediX12Init none none none = .ok q)
    ∧ (DISPATCH_MAP x12_default).length = 9
    ∧ (∃ pt log2, handle_part x12_default [] "LIN**BP*PN100**02" stateOpenDoc
        = .ok (x12_default, log2, { stateOpenDoc with
            edi_class := some { exampleDoc with part_list := exampleDoc.part_list ++ [pt] }
            part_record := some pt }))
    ∧ (∃ rel log2, handle_release x12_default [] "FST*100*C*D*20240105"
          { part_record := some examplePart }
        = .ok (x12_default, log2, { part_record := some { examplePart with
            release_list := examplePart.release_list ++ [rel] } }))
    ∧ handle_end x12_default [] "SE*10*0001" stateOpenDoc
        = .ok (x12_default, [], { stateOpenDoc with
            edi_class := none
            edi_class_list := stateOpenDoc.edi_class_list ++ [exampleDoc] }) := by
  have h := x12_handlers_complete
  exact ⟨h.1, h.2.1 x12_default,
    h.2.2.1 x12_default [] "LIN**BP*PN100**02" stateOpenDoc exampleDoc rfl,
    h.2.2.2.1 x12_default [] "FST*100*C*D*20240105" { part_record := some examplePart }
      examplePart rfl,
    h.2.2.2.2 x12_default [] "SE*10*0001" stateOpenDoc exampleDoc rfl⟩

theorem universal_plist_pair (sep : Separators) (segment : String) (p1 p2 : PosSpec)
    (date : Bool) (fmtIn fmtOut : String) (log : List ElementExtractionFailure) :
    universal_element_extract sep segment (.plist [p1, p2]) date fmtIn fmtOut log
      = (.list [(extract_pair sep segment p1 p2 date fmtIn fmtOut log).1.1,
                (extract_pair sep segment p1 p2 date fmtIn fmtOut log).1.2],
         (extract_pair sep segment p1 p2 date fmtIn fmtOut log).2) := by
  simp [universal_element_extract, extract_list, extract_pair]

theorem universal_plist_triple (sep : Separators) (segment : String) (p1 p2 p3 : PosSpec)
    (date : Bool) (fmtIn fmtOut : String) (log : List ElementExtractionFailure) :
    universal_element_extract sep segment (.plist [p1, p2, p3]) date fmtIn fmtOut log
      = (.list [(extract_triple sep segment p1 p2 p3 date fmtIn fmtOut log).1.1,
                (extract_triple sep segment p1 p2 p3 date fmtIn fmtOut log).1.2.1,
                (extract_triple sep segment p1 p2 p3 date fmtIn fmtOut log).1.2.2],
         (extract_triple sep segment p1 p2 p3 date fmtIn fmtOut log).2) := by
  simp [universal_element_extract, extract_list, extract_triple]

theorem universal_plist_quad (sep : Separators) (segment : String) (p1 p2 p3 p4 : PosSpec)
    (date : Bool) (fmtIn fmtOut : String) (log : List ElementExtractionFailure) :
    universal_element_extract sep segment (.plist [p1, p2, p3, p4]) date fmtIn fmtOut log
      = (.list [(extract_quad sep segment p1 p2 p3 p4 date fmtIn fmtOut log).1.1,
                (extract_quad sep segment p1 p2 p3 p4 date fmtIn fmtOut log).1.2.1,
                (extract_quad sep segment p1 p2 p3 p4 date fmtIn fmtOut log).1.2.2.1,
                (extract_quad sep segment p1 p2 p3 p4 date fmtIn fmtOut log).1.2.2.2],
         (extract_quad sep segment p1 p2 p3 p4 date fmtIn fmtOut log).2) := by
  simp [universal_element_extract, extract_list, extract_quad]
